import Mathlib

/-!
Shallow embedding of the sequencer's data-access and catch-up layer
(`sequencer/src/api/data_source.rs`) and proofs of its specified properties.

External crate types (keys, commitments, peer configs, URLs) are modelled as
opaque wrappers around natural numbers or strings: the code under verification
only moves these values around, so their internal structure is irrelevant.
-/

/-- BLS public key of a validator (external type, opaque here). -/
structure PubKey where
  bytes : Nat
deriving DecidableEq, Repr

/-- BLS private (signing) key of a validator (external type, opaque here). -/
structure BLSPrivKey where
  bytes : Nat
deriving DecidableEq, Repr

/-- Schnorr verification key of the light-client state key pair. -/
structure StateVerKey where
  bytes : Nat
deriving DecidableEq, Repr

/-- Light-client state key pair: a signing key together with its derived
verification key. `ver_key` projects out the verification key, mirroring
`StateKeyPair::ver_key`. -/
structure StateKeyPair where
  sign_key : Nat
  verification_key : StateVerKey
deriving DecidableEq, Repr

def StateKeyPair.ver_key (kp : StateKeyPair) : StateVerKey :=
  kp.verification_key

/-- String serialization of a verification key, mirroring the `Display`
rendering used by `state_public_key.to_string()`. -/
def StateVerKey.toString (k : StateVerKey) : String :=
  "SCHNORR_VER_KEY~" ++ Nat.repr k.bytes

/-- Full validator configuration (`hotshot_types::ValidatorConfig`), the input
of the sanitizer. Fields in source order. -/
structure ValidatorConfig where
  public_key : PubKey
  private_key : BLSPrivKey
  stake_value : Nat
  state_key_pair : StateKeyPair
  is_da : Bool
deriving DecidableEq, Repr

/-- Public (redacted) validator configuration, mirroring
`PublicValidatorConfig` in `data_source.rs`. -/
structure PublicValidatorConfig where
  public_key : PubKey
  stake_value : Nat
  is_da : Bool
  private_key : String
  state_public_key : String
  state_key_pair : String
deriving DecidableEq, Repr

/-- The sanitizer `impl From<ValidatorConfig<PubKey>> for PublicValidatorConfig`:
exhaustively destructures the input, discards the private key, redacts the key
fields with the fixed marker and serializes the verification key. -/
def PublicValidatorConfig.fromValidatorConfig (v : ValidatorConfig) : PublicValidatorConfig :=
  match v with
  | ⟨public_key, _private_key, stake_value, state_key_pair, is_da⟩ =>
    let state_public_key := state_key_pair.ver_key
    { public_key := public_key
      stake_value := stake_value
      is_da := is_da
      state_public_key := state_public_key.toString
      private_key := "*****"
      state_key_pair := "*****" }

/-- C1: for every validator configuration, the sanitized projection carries the
fixed redaction marker in its private-key and state-key-pair fields (hence
never any other string, in particular not the raw private key bytes), and
its state-public-key field is the string serialization of the verification key
derived from the original state key pair. -/
theorem publicValidatorConfig_redacts (v : ValidatorConfig) :
    (PublicValidatorConfig.fromValidatorConfig v).private_key = "*****" ∧
    (PublicValidatorConfig.fromValidatorConfig v).state_key_pair = "*****" ∧
    (∀ s : String, s ≠ "*****" →
      (PublicValidatorConfig.fromValidatorConfig v).private_key ≠ s ∧
      (PublicValidatorConfig.fromValidatorConfig v).state_key_pair ≠ s) ∧
    (PublicValidatorConfig.fromValidatorConfig v).state_public_key
      = (v.state_key_pair.ver_key).toString := by
  cases v
  refine ⟨rfl, rfl, ?_, rfl⟩
  intro s hs
  exact ⟨fun h => hs h.symm, fun h => hs h.symm⟩

/-- Execution type of consensus (`hotshot_types::ExecutionType`). -/
inductive ExecutionType
  | Incremental
  | Continuous
deriving DecidableEq, Repr

/-- Peer configuration entry (external type, opaque here). -/
structure PeerConfig where
  entry : Nat
deriving DecidableEq, Repr

/-- A time span (`std::time::Duration`), opaque here: carried, never computed with. -/
structure Duration where
  nanos : Nat
deriving DecidableEq, Repr

/-- A URL (`tide_disco::Url`), opaque here. -/
structure Url where
  address : String
deriving DecidableEq, Repr

/-- A non-empty vector of URLs (`vec1::Vec1<Url>`). -/
structure Vec1Url where
  head : Url
  tail : List Url
deriving DecidableEq, Repr

/-- Full consensus configuration (`hotshot_types::HotShotConfig<PubKey>`),
fields in source order. -/
structure HotShotConfig where
  execution_type : ExecutionType
  start_threshold : Nat × Nat
  num_nodes_with_stake : Nat
  num_nodes_without_stake : Nat
  known_nodes_with_stake : List PeerConfig
  known_da_nodes : List PeerConfig
  known_nodes_without_stake : List PubKey
  my_own_validator_config : ValidatorConfig
  da_staked_committee_size : Nat
  da_non_staked_committee_size : Nat
  fixed_leader_for_gpuvid : Nat
  next_view_timeout : Nat
  view_sync_timeout : Duration
  timeout_ratio : Nat × Nat
  round_start_delay : Nat
  start_delay : Nat
  num_bootstrap : Nat
  builder_timeout : Duration
  data_request_delay : Duration
  builder_urls : Vec1Url
  start_proposing_view : Nat
  stop_proposing_view : Nat
  start_voting_view : Nat
  stop_voting_view : Nat
deriving DecidableEq, Repr

/-- Public (redacted) consensus configuration, mirroring `PublicHotShotConfig`
in `data_source.rs`: same fields as `HotShotConfig` except that
`my_own_validator_config` holds the redacted projection. -/
structure PublicHotShotConfig where
  execution_type : ExecutionType
  start_threshold : Nat × Nat
  num_nodes_with_stake : Nat
  num_nodes_without_stake : Nat
  known_nodes_with_stake : List PeerConfig
  known_da_nodes : List PeerConfig
  known_nodes_without_stake : List PubKey
  my_own_validator_config : PublicValidatorConfig
  da_staked_committee_size : Nat
  da_non_staked_committee_size : Nat
  fixed_leader_for_gpuvid : Nat
  next_view_timeout : Nat
  view_sync_timeout : Duration
  timeout_ratio : Nat × Nat
  round_start_delay : Nat
  start_delay : Nat
  num_bootstrap : Nat
  builder_timeout : Duration
  data_request_delay : Duration
  builder_urls : Vec1Url
  start_proposing_view : Nat
  stop_proposing_view : Nat
  start_voting_view : Nat
  stop_voting_view : Nat
deriving DecidableEq, Repr

/-- The sanitizer `impl From<HotShotConfig<PubKey>> for PublicHotShotConfig`:
destructures every field of the source exactly once (the match pattern below
binds all 24 fields with no wildcard, as in the source's exhaustive
destructuring) and rebuilds the projection, redacting only
`my_own_validator_config`. -/
def PublicHotShotConfig.fromHotShotConfig (v : HotShotConfig) : PublicHotShotConfig :=
  match v with
  | ⟨execution_type, start_threshold, num_nodes_with_stake, num_nodes_without_stake,
     known_nodes_with_stake, known_da_nodes, known_nodes_without_stake,
     my_own_validator_config, da_staked_committee_size, da_non_staked_committee_size,
     fixed_leader_for_gpuvid, next_view_timeout, view_sync_timeout, timeout_ratio,
     round_start_delay, start_delay, num_bootstrap, builder_timeout,
     data_request_delay, builder_urls, start_proposing_view, stop_proposing_view,
     start_voting_view, stop_voting_view⟩ =>
    { execution_type := execution_type
      start_threshold := start_threshold
      num_nodes_with_stake := num_nodes_with_stake
      num_nodes_without_stake := num_nodes_without_stake
      known_nodes_with_stake := known_nodes_with_stake
      known_da_nodes := known_da_nodes
      known_nodes_without_stake := known_nodes_without_stake
      my_own_validator_config :=
        PublicValidatorConfig.fromValidatorConfig my_own_validator_config
      da_staked_committee_size := da_staked_committee_size
      da_non_staked_committee_size := da_non_staked_committee_size
      fixed_leader_for_gpuvid := fixed_leader_for_gpuvid
      next_view_timeout := next_view_timeout
      view_sync_timeout := view_sync_timeout
      timeout_ratio := timeout_ratio
      round_start_delay := round_start_delay
      start_delay := start_delay
      num_bootstrap := num_bootstrap
      builder_timeout := builder_timeout
      data_request_delay := data_request_delay
      builder_urls := builder_urls
      start_proposing_view := start_proposing_view
      stop_proposing_view := stop_proposing_view
      start_voting_view := start_voting_view
      stop_voting_view := stop_voting_view }

/-- C3: the HotShotConfig projection carries every field other than
`my_own_validator_config` through unchanged, and replaces
`my_own_validator_config` by its redacted projection. (The Lean definition
mirrors the source's exhaustive destructuring: all 24 fields are bound by the
match pattern, none by a wildcard.) -/
theorem publicHotShotConfig_fields (v : HotShotConfig) :
    (PublicHotShotConfig.fromHotShotConfig v).execution_type = v.execution_type ∧
    (PublicHotShotConfig.fromHotShotConfig v).start_threshold = v.start_threshold ∧
    (PublicHotShotConfig.fromHotShotConfig v).num_nodes_with_stake = v.num_nodes_with_stake ∧
    (PublicHotShotConfig.fromHotShotConfig v).num_nodes_without_stake = v.num_nodes_without_stake ∧
    (PublicHotShotConfig.fromHotShotConfig v).known_nodes_with_stake = v.known_nodes_with_stake ∧
    (PublicHotShotConfig.fromHotShotConfig v).known_da_nodes = v.known_da_nodes ∧
    (PublicHotShotConfig.fromHotShotConfig v).known_nodes_without_stake = v.known_nodes_without_stake ∧
    (PublicHotShotConfig.fromHotShotConfig v).my_own_validator_config
      = PublicValidatorConfig.fromValidatorConfig v.my_own_validator_config ∧
    (PublicHotShotConfig.fromHotShotConfig v).da_staked_committee_size = v.da_staked_committee_size ∧
    (PublicHotShotConfig.fromHotShotConfig v).da_non_staked_committee_size = v.da_non_staked_committee_size ∧
    (PublicHotShotConfig.fromHotShotConfig v).fixed_leader_for_gpuvid = v.fixed_leader_for_gpuvid ∧
    (PublicHotShotConfig.fromHotShotConfig v).next_view_timeout = v.next_view_timeout ∧
    (PublicHotShotConfig.fromHotShotConfig v).view_sync_timeout = v.view_sync_timeout ∧
    (PublicHotShotConfig.fromHotShotConfig v).timeout_ratio = v.timeout_ratio ∧
    (PublicHotShotConfig.fromHotShotConfig v).round_start_delay = v.round_start_delay ∧
    (PublicHotShotConfig.fromHotShotConfig v).start_delay = v.start_delay ∧
    (PublicHotShotConfig.fromHotShotConfig v).num_bootstrap = v.num_bootstrap ∧
    (PublicHotShotConfig.fromHotShotConfig v).builder_timeout = v.builder_timeout ∧
    (PublicHotShotConfig.fromHotShotConfig v).data_request_delay = v.data_request_delay ∧
    (PublicHotShotConfig.fromHotShotConfig v).builder_urls = v.builder_urls ∧
    (PublicHotShotConfig.fromHotShotConfig v).start_proposing_view = v.start_proposing_view ∧
    (PublicHotShotConfig.fromHotShotConfig v).stop_proposing_view = v.stop_proposing_view ∧
    (PublicHotShotConfig.fromHotShotConfig v).start_voting_view = v.start_voting_view ∧
    (PublicHotShotConfig.fromHotShotConfig v).stop_voting_view = v.stop_voting_view := by
  cases v
  exact ⟨rfl, rfl, rfl, rfl, rfl, rfl, rfl, rfl, rfl, rfl, rfl, rfl,
    rfl, rfl, rfl, rfl, rfl, rfl, rfl, rfl, rfl, rfl, rfl, rfl⟩

/-- Consensus view number (`hotshot_types::data::ViewNumber`), opaque here. -/
structure ViewNumber where
  round : Nat
deriving DecidableEq, Repr

/-- An account address (`ethers::prelude::Address`), opaque here. -/
structure Address where
  word : Nat
deriving DecidableEq, Repr

/-- Account state with proof at a snapshot (`AccountQueryData`), opaque here. -/
structure AccountQueryData where
  payload : Nat
deriving DecidableEq, Repr

/-- Blocks Merkle tree frontier (`BlocksFrontier`), opaque here. -/
structure BlocksFrontier where
  payload : Nat
deriving DecidableEq, Repr

/-- Chain-wide configuration (`ChainConfig`), opaque here. -/
structure ChainConfig where
  payload : Nat
deriving DecidableEq, Repr

/-- A content commitment to a `ChainConfig` (`Commitment<ChainConfig>`). -/
structure Commitment where
  hash : Nat
deriving DecidableEq, Repr

/-- The `CatchupDataSource` trait. A backend's implementation is a record of
the three operations; the default field values below are the trait's default
method bodies, each of which ignores its arguments and bails with the
explicit unsupported message (`anyhow::Error` modelled as its message string). -/
structure CatchupDataSource where
  get_account : Nat → ViewNumber → Address → Except String AccountQueryData :=
    fun _height _view _account =>
      Except.error "merklized state catchup is not supported for this data source"
  get_frontier : Nat → ViewNumber → Except String BlocksFrontier :=
    fun _height _view =>
      Except.error "merklized state catchup is not supported for this data source"
  get_chain_config : Commitment → Except String ChainConfig :=
    fun _commitment =>
      Except.error "chain config catchup is not supported for this data source"

/-- The implementation a backend gets when it overrides none of the trait's
default methods. -/
def CatchupDataSource.defaults : CatchupDataSource := {}

/-- The metrics-only data source (`MetricsDataSource`, external type). -/
structure MetricsDataSource where
  metrics : Nat
deriving DecidableEq, Repr

/-- The empty impl `impl CatchupDataSource for MetricsDataSource {}`: the
metrics data source adopts every default method unchanged. -/
def MetricsDataSource.catchupDataSource (_self : MetricsDataSource) : CatchupDataSource := {}

/-- C2: a backend that overrides none of the `CatchupDataSource` defaults fails
every operation, for every input, with the explicit unsupported-for-this-backend
error; in particular no call ever returns data. -/
theorem catchupDataSource_defaults_unsupported (height : Nat) (view : ViewNumber)
    (account : Address) (commitment : Commitment) :
    CatchupDataSource.defaults.get_account height view account
      = Except.error "merklized state catchup is not supported for this data source" ∧
    CatchupDataSource.defaults.get_frontier height view
      = Except.error "merklized state catchup is not supported for this data source" ∧
    CatchupDataSource.defaults.get_chain_config commitment
      = Except.error "chain config catchup is not supported for this data source" ∧
    (∀ d, CatchupDataSource.defaults.get_account height view account ≠ Except.ok d) ∧
    (∀ d, CatchupDataSource.defaults.get_frontier height view ≠ Except.ok d) ∧
    (∀ d, CatchupDataSource.defaults.get_chain_config commitment ≠ Except.ok d) := by
  refine ⟨rfl, rfl, rfl, ?_, ?_, ?_⟩ <;> intro d h <;> exact Except.noConfusion h

/-- C9: `MetricsDataSource` implements `CatchupDataSource` with no overrides
(its implementation is exactly the default one), so on it every call to the
three operations fails with the unsupported-catchup error, for every input. -/
theorem metricsDataSource_catchup_unsupported (m : MetricsDataSource) (height : Nat)
    (view : ViewNumber) (account : Address) (commitment : Commitment) :
    m.catchupDataSource = CatchupDataSource.defaults ∧
    (m.catchupDataSource).get_account height view account
      = Except.error "merklized state catchup is not supported for this data source" ∧
    (m.catchupDataSource).get_frontier height view
      = Except.error "merklized state catchup is not supported for this data source" ∧
    (m.catchupDataSource).get_chain_config commitment
      = Except.error "chain config catchup is not supported for this data source" := by
  exact ⟨rfl, rfl, rfl, rfl⟩

/-- The composite fetch provider, `pub type Provider = AnyProvider<SeqTypes>`:
modelled by its observable content, the ordered list of registered
query-service clients, each identified by its peer URL. -/
abbrev Provider := List Url

/-- `Provider::default()`: a composite provider with no sources registered. -/
def Provider.defaultProvider : Provider := []

/-- `AnyProvider::with_provider`: registers one more source after all those
already registered. -/
def Provider.with_provider (p : Provider) (peer : Url) : Provider :=
  p ++ [peer]

/-- The `provider` function: starts from the default (empty) composite provider
and registers one query-service client per peer, in iteration order. -/
def provider (peers : List Url) : Provider :=
  List.foldl Provider.with_provider Provider.defaultProvider peers

/-- Outcome of a fetch through the composite provider (spec error taxonomy). -/
inductive FetchError
  | Unavailable
deriving DecidableEq, Repr

/-- Content held by a peer for the requested item, opaque here. -/
structure Content where
  bytes : Nat
deriving DecidableEq, Repr

/-- Modelled from the spec: the request-resolution strategy of the composite
provider (`AnyProvider`, whose implementation lives in the external
query-service crate, not in this file). A peer's behaviour for the requested
item is abstracted as `respond : Url → Option Content` (`some` = that peer
serves the item, `none` = it fails). Resolution tries the registered sources
strictly in order, returns the first success, and reports Unavailable only
once every source has failed. -/
def Provider.fetch (p : Provider) (respond : Url → Option Content) : Except FetchError Content :=
  match p with
  | [] => Except.error FetchError.Unavailable
  | peer :: rest =>
    match respond peer with
    | some c => Except.ok c
    | none => Provider.fetch rest respond

lemma foldl_with_provider (acc : Provider) (peers : List Url) :
    List.foldl Provider.with_provider acc peers = acc ++ peers := by
  induction peers generalizing acc with
  | nil => simp
  | cons peer rest ih =>
    simp [List.foldl, Provider.with_provider, ih]

lemma fetch_all_fail (p : Provider) (respond : Url → Option Content)
    (h : ∀ u, u ∈ p → respond u = none) :
    Provider.fetch p respond = Except.error FetchError.Unavailable := by
  induction p with
  | nil => rfl
  | cons peer rest ih =>
    have hpeer : respond peer = none := h peer (List.mem_cons_self peer rest)
    simp only [Provider.fetch, hpeer]
    exact ih fun u hu => h u (List.mem_cons_of_mem peer hu)

lemma fetch_first_success (pre : List Url) (peer : Url) (post : List Url)
    (respond : Url → Option Content) (c : Content)
    (hpre : ∀ u, u ∈ pre → respond u = none) (hpeer : respond peer = some c) :
    Provider.fetch (pre ++ peer :: post) respond = Except.ok c := by
  induction pre with
  | nil => simp [Provider.fetch, hpeer]
  | cons x rest ih =>
    have hx : respond x = none := hpre x (List.mem_cons_self x rest)
    simp only [List.cons_append, Provider.fetch, hx]
    exact ih fun u hu => hpre u (List.mem_cons_of_mem x hu)

/-- C5: `provider peers` registers one query-service client per peer, in
exactly the given order; resolution (modelled from the spec, as the resolution
loop lives in the external query-service crate) tries the sources strictly in
that order, returns the first success, and reports Unavailable only once every
source has failed; with zero peers every fetch fails immediately as
Unavailable. -/
theorem provider_order_and_resolution (peers : List Url) (respond : Url → Option Content) :
    provider peers = peers ∧
    Provider.fetch (provider []) respond = Except.error FetchError.Unavailable ∧
    ((∀ u, u ∈ peers → respond u = none) →
      Provider.fetch (provider peers) respond = Except.error FetchError.Unavailable) ∧
    (∀ pre peer post c, peers = pre ++ peer :: post →
      (∀ u, u ∈ pre → respond u = none) → respond peer = some c →
      Provider.fetch (provider peers) respond = Except.ok c) := by
  have horder : provider peers = peers := by
    simpa [Provider.defaultProvider] using foldl_with_provider [] peers
  refine ⟨horder, rfl, ?_, ?_⟩
  · intro hall
    rw [horder]
    exact fetch_all_fail peers respond hall
  · intro pre peer post c hsplit hpre hpeer
    rw [horder, hsplit]
    exact fetch_first_success pre peer post respond c hpre hpeer

/-- Error taxonomy of a capable backend's catch-up override (spec section 7). -/
inductive CatchupError
  | Unsupported (msg : String)
  | NotFound
deriving DecidableEq, Repr

/-- Modelled from the spec: `get_chain_config` on a capable backend (the
overrides live in the sql/fs backend modules, not in this file; the default in
this file only bails as unsupported). Such a backend holds a content-addressed
chain-config store, abstracted as `store : Commitment → Option ChainConfig`.
The spec requires resolution purely by content commitment, independent of any
height or view supplied elsewhere in the catch-up context (modelled by the
ignored arguments), with an unknown commitment failing as NotFound. -/
def overrideGetChainConfig (store : Commitment → Option ChainConfig)
    (_height : Nat) (_view : ViewNumber) (commitment : Commitment) :
    Except CatchupError ChainConfig :=
  match store commitment with
  | some cfg => Except.ok cfg
  | none => Except.error CatchupError.NotFound

/-- C6: `get_chain_config` is idempotent and depends only on the content
commitment — calls with the same commitment return identical results whatever
height or view accompany them (so in particular repeated calls agree) — and an
unknown commitment fails as NotFound regardless of height and view. -/
theorem getChainConfig_idempotent_commitment_keyed
    (store : Commitment → Option ChainConfig) (h₁ h₂ : Nat) (v₁ v₂ : ViewNumber)
    (c : Commitment) :
    overrideGetChainConfig store h₁ v₁ c = overrideGetChainConfig store h₂ v₂ c ∧
    (store c = none →
      overrideGetChainConfig store h₁ v₁ c = Except.error CatchupError.NotFound) ∧
    (∀ cfg, store c = some cfg →
      overrideGetChainConfig store h₁ v₁ c = Except.ok cfg) := by
  refine ⟨rfl, ?_, ?_⟩
  · intro hnone
    simp [overrideGetChainConfig, hnone]
  · intro cfg hsome
    simp [overrideGetChainConfig, hsome]

/-- Typed backend-initialization error (spec: InitializationFailure). -/
structure InitError where
  msg : String
deriving DecidableEq, Repr

/-- The backend's underlying store handle, opaque here. -/
structure Store where
  handle : Nat
deriving DecidableEq, Repr

/-- A fully constructed sequencer data-source instance: the initialized backend
store together with the fetch provider it was given. -/
structure DataSourceInstance where
  store : Store
  fetchProvider : Provider
deriving DecidableEq, Repr

/-- Modelled from the spec: `SequencerDataSource::create(opt, provider, reset)`
(the concrete sql/fs implementations live outside this file; here only the
trait signature appears). Backend initialization — including the reset of
persisted state when `reset` is true — is abstracted as
`initBackend : Bool → Except InitError Store`. On success, `create` returns the
fully constructed instance; on failure it surfaces the typed initialization
error and returns no instance. -/
def SequencerDataSource.create (initBackend : Bool → Except InitError Store)
    (prov : Provider) (reset : Bool) : Except InitError DataSourceInstance :=
  match initBackend reset with
  | Except.ok store => Except.ok { store := store, fetchProvider := prov }
  | Except.error e => Except.error e

/-- C7: `create` either returns a fully constructed instance — one whose store
is exactly the store the backend initialization produced and whose provider is
exactly the provider passed in — or surfaces the backend initialization error
as a typed error; it never returns anything else (no partially-initialized
instance). -/
theorem create_total_or_typed_error (initBackend : Bool → Except InitError Store)
    (prov : Provider) (reset : Bool) :
    (∀ e, SequencerDataSource.create initBackend prov reset = Except.error e ↔
      initBackend reset = Except.error e) ∧
    (∀ ds, SequencerDataSource.create initBackend prov reset = Except.ok ds →
      initBackend reset = Except.ok ds.store ∧ ds.fetchProvider = prov) := by
  constructor
  · intro e
    constructor
    · intro h
      cases hinit : initBackend reset with
      | ok store => simp [SequencerDataSource.create, hinit] at h
      | error e₂ =>
        simp [SequencerDataSource.create, hinit] at h
        rw [h]
    · intro h
      simp [SequencerDataSource.create, h]
  · intro ds h
    cases hinit : initBackend reset with
    | ok store =>
      simp [SequencerDataSource.create, hinit] at h
      subst h
      exact ⟨rfl, rfl⟩
    | error e => simp [SequencerDataSource.create, hinit] at h

/-- C8: the config sanitizers are deterministic pure transforms — applied to
equal inputs they yield equal outputs. -/
theorem sanitizer_deterministic (v₁ v₂ : ValidatorConfig) (c₁ c₂ : HotShotConfig)
    (hv : v₁ = v₂) (hc : c₁ = c₂) :
    PublicValidatorConfig.fromValidatorConfig v₁ = PublicValidatorConfig.fromValidatorConfig v₂ ∧
    PublicHotShotConfig.fromHotShotConfig c₁ = PublicHotShotConfig.fromHotShotConfig c₂ := by
  subst hv
  subst hc
  exact ⟨rfl, rfl⟩

/-- C10: the validator-config sanitizer is noninterfering with respect to the
private signing key: two inputs agreeing on every field except possibly
`private_key` produce identical projections. -/
theorem sanitizer_private_key_noninterference (v₁ v₂ : ValidatorConfig)
    (hpub : v₁.public_key = v₂.public_key)
    (hstake : v₁.stake_value = v₂.stake_value)
    (hpair : v₁.state_key_pair = v₂.state_key_pair)
    (hda : v₁.is_da = v₂.is_da) :
    PublicValidatorConfig.fromValidatorConfig v₁ = PublicValidatorConfig.fromValidatorConfig v₂ := by
  cases v₁
  cases v₂
  simp only at hpub hstake hpair hda
  subst hpub
  subst hstake
  subst hpair
  subst hda
  rfl

/-- The two persistence-backend options types (`persistence::sql::Options` and
`persistence::fs::Options`), the only implementors of `DataSourceOptions`. -/
inductive PersistenceOptionsKind
  | sqlOptions
  | fsOptions
deriving DecidableEq, Repr

/-- The two sequencer read-API data-source types (`sql::DataSource` and
`fs::DataSource`), the only implementors of `SequencerDataSource`. -/
inductive SequencerDataSourceKind
  | sqlDataSource
  | fsDataSource
deriving DecidableEq, Repr

/-- The associated type `DataSourceOptions::DataSource`, read off the two impls
in `data_source.rs`: sql options bind `sql::DataSource`, fs options bind
`fs::DataSource`. -/
def DataSourceOptions.DataSource : PersistenceOptionsKind → SequencerDataSourceKind
  | PersistenceOptionsKind.sqlOptions => SequencerDataSourceKind.sqlDataSource
  | PersistenceOptionsKind.fsOptions => SequencerDataSourceKind.fsDataSource

/-- The associated type `SequencerDataSource::Options`, constrained by the
trait bound `Options : DataSourceOptions<DataSource = Self>` to invert the
binding above. -/
def SequencerDataSource.Options : SequencerDataSourceKind → PersistenceOptionsKind
  | SequencerDataSourceKind.sqlDataSource => PersistenceOptionsKind.sqlOptions
  | SequencerDataSourceKind.fsDataSource => PersistenceOptionsKind.fsOptions

/-- C4: the backend-options binding is one-to-one and fixed at configuration
time: sql options bind exactly the sql data source and fs options exactly the
fs data source; the binding is injective (no two backend kinds share a read-API
type) and the two associated-type maps are mutually inverse, as required by the
bound `DataSourceOptions<DataSource = Self>` / `SequencerDataSource::Options`. -/
theorem dataSourceOptions_binding_bijective :
    DataSourceOptions.DataSource PersistenceOptionsKind.sqlOptions
      = SequencerDataSourceKind.sqlDataSource ∧
    DataSourceOptions.DataSource PersistenceOptionsKind.fsOptions
      = SequencerDataSourceKind.fsDataSource ∧
    Function.Injective DataSourceOptions.DataSource ∧
    (∀ k, SequencerDataSource.Options (DataSourceOptions.DataSource k) = k) ∧
    (∀ d, DataSourceOptions.DataSource (SequencerDataSource.Options d) = d) := by
  refine ⟨rfl, rfl, ?_, ?_, ?_⟩
  · intro a b hab
    cases a <;> cases b <;> simp_all [DataSourceOptions.DataSource]
  · intro k
    cases k <;> rfl
  · intro d
    cases d <;> rfl

/-! Sample values used by the witness theorems below. -/

def sampleStateKeyPair : StateKeyPair :=
  { sign_key := 7, verification_key := { bytes := 11 } }

def sampleValidatorConfig : ValidatorConfig :=
  { public_key := { bytes := 1 }
    private_key := { bytes := 2 }
    stake_value := 3
    state_key_pair := sampleStateKeyPair
    is_da := true }

/-- Same as `sampleValidatorConfig` except for the private signing key. -/
def sampleValidatorConfigAlt : ValidatorConfig :=
  { public_key := { bytes := 1 }
    private_key := { bytes := 99 }
    stake_value := 3
    state_key_pair := sampleStateKeyPair
    is_da := true }

def sampleHotShotConfig : HotShotConfig :=
  { execution_type := ExecutionType.Continuous
    start_threshold := (2, 3)
    num_nodes_with_stake := 5
    num_nodes_without_stake := 0
    known_nodes_with_stake := [{ entry := 21 }]
    known_da_nodes := [{ entry := 21 }]
    known_nodes_without_stake := []
    my_own_validator_config := sampleValidatorConfig
    da_staked_committee_size := 1
    da_non_staked_committee_size := 0
    fixed_leader_for_gpuvid := 1
    next_view_timeout := 1000
    view_sync_timeout := { nanos := 500 }
    timeout_ratio := (11, 10)
    round_start_delay := 1
    start_delay := 1
    num_bootstrap := 4
    builder_timeout := { nanos := 900 }
    data_request_delay := { nanos := 100 }
    builder_urls := { head := { address := "b0" }, tail := [] }
    start_proposing_view := 0
    stop_proposing_view := 10
    start_voting_view := 0
    stop_voting_view := 10 }

def urlP1 : Url := { address := "p1" }

def urlP2 : Url := { address := "p2" }

def sampleContent : Content := { bytes := 42 }

/-- A network in which only the second peer holds the requested item. -/
def respondOnlyP2 : Url → Option Content :=
  fun u => if u = urlP2 then some sampleContent else none

def sampleChainConfig : ChainConfig := { payload := 5 }

/-- A chain-config store holding one entry, at commitment 0. -/
def sampleStore : Commitment → Option ChainConfig :=
  fun c => if c.hash = 0 then some sampleChainConfig else none

/-- A backend whose initialization succeeds unless asked to reset. -/
def sampleInitBackend : Bool → Except InitError Store :=
  fun reset => if reset then Except.error { msg := "reset failed" } else Except.ok { handle := 10 }

/-- Witness for C1 at a concrete validator configuration. -/
theorem publicValidatorConfig_redacts_witness :
    (PublicValidatorConfig.fromValidatorConfig sampleValidatorConfig).private_key = "*****" ∧
    (PublicValidatorConfig.fromValidatorConfig sampleValidatorConfig).state_key_pair = "*****" ∧
    (PublicValidatorConfig.fromValidatorConfig sampleValidatorConfig).private_key ≠ "rawkey" ∧
    (PublicValidatorConfig.fromValidatorConfig sampleValidatorConfig).state_public_key
      = (sampleValidatorConfig.state_key_pair.ver_key).toString := by
  have h := publicValidatorConfig_redacts sampleValidatorConfig
  exact ⟨h.1, h.2.1, (h.2.2.1 "rawkey" (by decide)).1, h.2.2.2⟩

/-- Witness for C5: two peers of which only the second holds the item. -/
theorem provider_order_and_resolution_witness :
    provider [urlP1, urlP2] = [urlP1, urlP2] ∧
    Provider.fetch (provider []) respondOnlyP2 = Except.error FetchError.Unavailable ∧
    Provider.fetch (provider [urlP1, urlP2]) respondOnlyP2 = Except.ok sampleContent := by
  have h := provider_order_and_resolution [urlP1, urlP2] respondOnlyP2
  refine ⟨h.1, h.2.1, ?_⟩
  refine h.2.2.2 [urlP1] urlP2 [] sampleContent rfl ?_ (by decide)
  intro u hu
  rw [List.mem_singleton] at hu
  subst hu
  decide

/-- Witness for C6 at a concrete store and commitments. -/
theorem getChainConfig_idempotent_witness :
    overrideGetChainConfig sampleStore 1 { round := 2 } { hash := 0 }
      = overrideGetChainConfig sampleStore 9 { round := 8 } { hash := 0 } ∧
    overrideGetChainConfig sampleStore 1 { round := 2 } { hash := 3 }
      = Except.error CatchupError.NotFound ∧
    overrideGetChainConfig sampleStore 1 { round := 2 } { hash := 0 }
      = Except.ok sampleChainConfig := by
  have hsame := getChainConfig_idempotent_commitment_keyed sampleStore 1 9
    { round := 2 } { round := 8 } { hash := 0 }
  have hmiss := getChainConfig_idempotent_commitment_keyed sampleStore 1 9
    { round := 2 } { round := 8 } { hash := 3 }
  exact ⟨hsame.1, hmiss.2.1 (by decide), hsame.2.2 sampleChainConfig (by decide)⟩

/-- Witness for C7 at a concrete backend, provider and reset flag. -/
theorem create_total_or_typed_error_witness :
    sampleInitBackend false = Except.ok ({ handle := 10 } : Store) ∧
    ({ store := { handle := 10 }, fetchProvider := [urlP1] } : DataSourceInstance).fetchProvider
      = [urlP1] := by
  exact (create_total_or_typed_error sampleInitBackend [urlP1] false).2
    { store := { handle := 10 }, fetchProvider := [urlP1] } rfl

/-- Witness for C8 at concrete configurations. -/
theorem sanitizer_deterministic_witness :
    PublicValidatorConfig.fromValidatorConfig sampleValidatorConfig
      = PublicValidatorConfig.fromValidatorConfig sampleValidatorConfig ∧
    PublicHotShotConfig.fromHotShotConfig sampleHotShotConfig
      = PublicHotShotConfig.fromHotShotConfig sampleHotShotConfig :=
  sanitizer_deterministic sampleValidatorConfig sampleValidatorConfig
    sampleHotShotConfig sampleHotShotConfig rfl rfl

/-- Witness for C10: two configurations differing exactly in the private
signing key sanitize to identical projections. -/
theorem sanitizer_noninterference_witness :
    sampleValidatorConfig.private_key ≠ sampleValidatorConfigAlt.private_key ∧
    PublicValidatorConfig.fromValidatorConfig sampleValidatorConfig
      = PublicValidatorConfig.fromValidatorConfig sampleValidatorConfigAlt :=
  ⟨by decide, sanitizer_private_key_noninterference sampleValidatorConfig
    sampleValidatorConfigAlt rfl rfl rfl rfl⟩
